import Mathlib

/-!
Shallow embedding of the marker / projection core of the ev-earth-simulator
repository (src/script.js): the latitude/longitude-to-sphere projection, the
marker store with its globe attachment, and the geocode-and-refresh cycle,
together with proofs of the specified properties.
-/

open Real

/-- Embedding of THREE.Vector3 as used here: a 3-component vector,
parameterised by the scalar type so the same shape serves exact-real
statements and the JS-number (NaN-aware) marker pipeline. -/
@[ext]
structure Vec3 (α : Type) where
  x : α
  y : α
  z : α

/-- Embedding of latLonToVector3 (script.js:123-132) over exact reals:
phi = (90 - lat)·(pi/180), theta = (lon + 180)·(pi/180),
x = -(radius·sin phi·cos theta), z = radius·sin phi·sin theta,
y = radius·cos phi. -/
noncomputable def latLonToVector3 (lat lon radius : ℝ) : Vec3 ℝ :=
  let phi := (90 - lat) * (π / 180)
  let theta := (lon + 180) * (π / 180)
  let x := -(radius * Real.sin phi * Real.cos theta)
  let z := radius * Real.sin phi * Real.sin theta
  let y := radius * Real.cos phi
  ⟨x, y, z⟩

/-- Euclidean length of a real vector, for the on-sphere property. -/
noncomputable def vecLength (v : Vec3 ℝ) : ℝ :=
  Real.sqrt (v.x ^ 2 + v.y ^ 2 + v.z ^ 2)

/-- A JavaScript number as this program can observe it: an ordinary (finite)
real, or NaN. The program's arithmetic stays finite, so the Infinity values
are collapsed to nan at the two spots they could in principle arise
(division by zero, marked below); neither spot is reachable with the radii
this program uses. -/
inductive JSNum where
  | nan : JSNum
  | num : ℝ → JSNum

/-- JS addition: NaN-propagating real addition. -/
def JSNum.add : JSNum → JSNum → JSNum
  | .num a, .num b => .num (a + b)
  | _, _ => .nan

/-- JS subtraction: NaN-propagating real subtraction. -/
def JSNum.sub : JSNum → JSNum → JSNum
  | .num a, .num b => .num (a - b)
  | _, _ => .nan

/-- JS multiplication: NaN-propagating real multiplication. -/
def JSNum.mul : JSNum → JSNum → JSNum
  | .num a, .num b => .num (a * b)
  | _, _ => .nan

/-- JS unary minus: NaN-propagating negation. -/
def JSNum.neg : JSNum → JSNum
  | .num a => .num (-a)
  | .nan => .nan

/-- Math.sin: NaN in, NaN out. -/
noncomputable def JSNum.sin : JSNum → JSNum
  | .num a => .num (Real.sin a)
  | .nan => .nan

/-- Math.cos: NaN in, NaN out. -/
noncomputable def JSNum.cos : JSNum → JSNum
  | .num a => .num (Real.cos a)
  | .nan => .nan

/-- Math.sqrt: NaN for a negative argument, NaN in NaN out. -/
noncomputable def JSNum.sqrt : JSNum → JSNum
  | .num a => if a < 0 then .nan else .num (Real.sqrt a)
  | .nan => .nan

/-- JS division, NaN-propagating; a zero denominator (which in JS yields an
infinity or NaN, and is unreachable in this program since marker positions
have length 1.005) is collapsed to nan. -/
noncomputable def JSNum.div : JSNum → JSNum → JSNum
  | .num a, .num b => if b = 0 then .nan else .num (a / b)
  | _, _ => .nan

/-- The latLonToVector3 formula as evaluated when addMarker feeds it the
products of parseFloat, which may be NaN: the identical arithmetic lifted to
JS numbers. -/
noncomputable def latLonToVector3J (lat lon radius : JSNum) : Vec3 JSNum :=
  let phi := ((JSNum.num 90).sub lat).mul (JSNum.num (π / 180))
  let theta := (lon.add (JSNum.num 180)).mul (JSNum.num (π / 180))
  let x := ((radius.mul phi.sin).mul theta.cos).neg
  let z := (radius.mul phi.sin).mul theta.sin
  let y := radius.mul phi.cos
  ⟨x, y, z⟩

/-- THREE.Vector3.add, componentwise. -/
def vecAddJ (a b : Vec3 JSNum) : Vec3 JSNum :=
  ⟨a.x.add b.x, a.y.add b.y, a.z.add b.z⟩

/-- THREE.Vector3.length: sqrt of the sum of squared components. -/
noncomputable def vecLengthJ (v : Vec3 JSNum) : JSNum :=
  (((v.x.mul v.x).add (v.y.mul v.y)).add (v.z.mul v.z)).sqrt

/-- THREE.Vector3.normalize: divide each component by the length (THREE
implements this as multiplication by 1/length, equal over the reals; the
zero-length case is the collapsed-to-nan division noted at JSNum.div). -/
noncomputable def vecNormalizeJ (v : Vec3 JSNum) : Vec3 JSNum :=
  let l := vecLengthJ v
  ⟨v.x.div l, v.y.div l, v.z.div l⟩

/-- Longest leading run of decimal digits of a character list: their values
and the rest of the input. -/
def digitChars : List Char → List ℕ × List Char
  | c :: rest =>
    if c.isDigit then
      let (ds, r) := digitChars rest
      ((c.toNat - 48) :: ds, r)
    else ([], c :: rest)
  | [] => ([], [])

/-- Value of a digit sequence read in base 10. -/
def digitsVal (ds : List ℕ) : ℕ :=
  ds.foldl (fun a d => 10 * a + d) 0

/-- Decimal exponent part of a JS number literal, applied to the mantissa:
an optionally signed digit run; a malformed exponent is ignored, as JS
parseFloat stops before it. -/
def applyExpSigned (mant : ℚ) : List Char → ℚ
  | '-' :: r =>
    let ds := (digitChars r).1
    if ds.isEmpty then mant else mant / (10 : ℚ) ^ digitsVal ds
  | '+' :: r =>
    let ds := (digitChars r).1
    if ds.isEmpty then mant else mant * (10 : ℚ) ^ digitsVal ds
  | cs =>
    let ds := (digitChars cs).1
    if ds.isEmpty then mant else mant * (10 : ℚ) ^ digitsVal ds

/-- Dispatch on the e/E marker introducing an exponent part. -/
def applyExponent (mant : ℚ) : List Char → ℚ
  | 'e' :: r => applyExpSigned mant r
  | 'E' :: r => applyExpSigned mant r
  | _ => mant

/-- Modelled from the JS builtin parseFloat as called at script.js:177-178:
skip leading whitespace, then read the longest decimal-literal front — an
optional sign, integer digits, an optional fraction, an optional decimal
exponent — ignoring any trailing garbage; none models the NaN returned when
no digit is found. The Infinity literal, which the geocoding service never
emits, is not modelled. -/
def parseFloat (s : String) : Option ℚ :=
  let cs := s.data.dropWhile Char.isWhitespace
  let signed : ℚ × List Char :=
    match cs with
    | '-' :: r => (-1, r)
    | '+' :: r => (1, r)
    | _ => (1, cs)
  let ipPart := digitChars signed.2
  let fpPart : List ℕ × List Char :=
    match ipPart.2 with
    | '.' :: r => digitChars r
    | _ => ([], ipPart.2)
  if ipPart.1.isEmpty && fpPart.1.isEmpty then none
  else
    let mant : ℚ :=
      signed.1 * ((digitsVal ipPart.1 : ℚ) + (digitsVal fpPart.1 : ℚ) / (10 : ℚ) ^ fpPart.1.length)
    some (applyExponent mant fpPart.2)

/-- Injection of a parseFloat result into the JS numbers. -/
noncomputable def jsOfParse : Option ℚ → JSNum
  | none => .nan
  | some q => .num (q : ℝ)

/-- Embedding of the settings object (script.js:5-13) plus the two
light-intensity fields that only the slider handlers (script.js:267-282)
assign: a field the object does not yet have is none; a field holding the
number v is some v. -/
structure Settings where
  backgroundColor : ℕ
  markerColor : ℕ
  markerSize : JSNum
  locations : List String
  shadowOpacity : JSNum
  shadowSize : JSNum
  shadowPosition : JSNum
  ambientLightIntensity : Option JSNum
  directionalLightIntensity : Option JSNum

/-- The initial value of the settings literal (script.js:5-13): the two
light-intensity fields are absent until their input handlers first run. -/
noncomputable def settings : Settings :=
  { backgroundColor := 0xffffff,
    markerColor := 0xff0000,
    markerSize := .num 0.008,
    locations := ["New York, USA", "Miami, USA", "Cancun, Mexico"],
    shadowOpacity := .num 0.35,
    shadowSize := .num 5,
    shadowPosition := .num (-1.8),
    ambientLightIntensity := none,
    directionalLightIntensity := none }

/-- Embedding of the ambientLight input handler (script.js:267-271) as far as
it touches settings: store parseFloat of the raw input string; the mirrored
ambientLight.intensity and label updates live in the render host / DOM,
outside this model. -/
noncomputable def ambientLightHandler (st : Settings) (raw : String) : Settings :=
  { st with ambientLightIntensity := some (jsOfParse (parseFloat raw)) }

/-- Embedding of the directionalLight input handler (script.js:277-282) as
far as it touches settings. -/
noncomputable def directionalLightHandler (st : Settings) (raw : String) : Settings :=
  { st with directionalLightIntensity := some (jsOfParse (parseFloat raw)) }

/-- Embedding of a marker Mesh: exactly the data addMarker gives it. The id
field models JS object identity (allocation order), so that globe.remove —
which removes by identity — is expressible. -/
structure Marker where
  id : ℕ
  position : Vec3 JSNum
  lookTarget : Vec3 JSNum
  color : ℕ
  size : JSNum

/-- The mutable state the marker subsystem touches: the globe's children
list (written by globe.add / globe.remove), the markers array
(script.js:135), and the identity allocator for fresh Mesh objects. -/
structure AppState where
  globeChildren : List Marker
  markers : List Marker
  nextId : ℕ

/-- The state before any marker has been created. -/
def initialState : AppState := ⟨[], [], 0⟩

/-- Embedding of addMarker (script.js:138-156): compute the projected
position at radius 1.005 (slightly above the globe's unit radius), orient
the marker toward position + outward unit normal (the lookAt call on
position.clone().normalize()), attach it to the globe, push it onto the
markers array, and return it. -/
noncomputable def addMarker (s : AppState) (lat lon : JSNum) (color : ℕ) (size : JSNum) :
    AppState × Marker :=
  let position := latLonToVector3J lat lon (.num 1.005)
  let normalVector := vecNormalizeJ position
  let marker : Marker :=
    { id := s.nextId, position := position,
      lookTarget := vecAddJ position normalVector, color := color, size := size }
  ({ globeChildren := s.globeChildren ++ [marker],
     markers := s.markers ++ [marker],
     nextId := s.nextId + 1 }, marker)

/-- Embedding of THREE.Object3D.remove: splice out the occurrence of the
object among the children (identity comparison; no effect when absent; an
object occurs at most once since THREE.Object3D.add reparents). -/
def removeChild (children : List Marker) (m : Marker) : List Marker :=
  children.eraseP (fun c => c.id == m.id)

/-- Embedding of clearMarkers (script.js:159-162): globe.remove on every
stored marker, then reset the markers array to empty. -/
def clearMarkers (s : AppState) : AppState :=
  { globeChildren := s.markers.foldl removeChild s.globeChildren,
    markers := [],
    nextId := s.nextId }

/-- One result object of the geocoding JSON response: its string-encoded
latitude and longitude fields. -/
structure GeoResult where
  lat : String
  lon : String

/-- Outcome of one fetch + response.json() for a location: fail when either
throws (network error, malformed body), ok with the decoded result array
otherwise (an empty array models both no-result and falsy data). -/
inductive FetchResult where
  | fail : FetchResult
  | ok : List GeoResult → FetchResult

/-- Whether the lookup threw, i.e. control jumped to the catch block. -/
def FetchResult.isFail : FetchResult → Bool
  | .fail => true
  | .ok _ => false

/-- Embedding of one iteration of the geocode loop (script.js:167-188) given
the fetch outcome: on a non-empty result array, parseFloat both coordinates
of the first result and addMarker with the configured color and size; then
the 1000 ms rate-limit delay — which the thrown-error path skips, because
the awaited setTimeout sits inside the try block. Returns the new state and
the suspension time of this iteration in ms. -/
noncomputable def stepCity (s : AppState) (cfg : Settings) (r : FetchResult) : AppState × ℕ :=
  match r with
  | .fail => (s, 0)
  | .ok data =>
    match data with
    | [] => (s, 1000)
    | first :: _ =>
      ((addMarker s (jsOfParse (parseFloat first.lat)) (jsOfParse (parseFloat first.lon))
          cfg.markerColor cfg.markerSize).1, 1000)

/-- The for-of loop of geocodeAndAddMarkers over the remaining cities, where
i is the loop position of the next city and resp gives each position's fetch
outcome. Returns the final state and the total suspension time in ms. -/
noncomputable def runCities (cfg : Settings) (resp : ℕ → FetchResult) :
    AppState → ℕ → List String → AppState × ℕ
  | s, _, [] => (s, 0)
  | s, i, _ :: rest =>
    let this := stepCity s cfg (resp i)
    let tail := runCities cfg resp this.1 (i + 1) rest
    (tail.1, this.2 + tail.2)

/-- Embedding of geocodeAndAddMarkers (script.js:165-189): clear all current
markers, then process each configured location in order. -/
noncomputable def geocodeAndAddMarkers (s : AppState) (cfg : Settings)
    (resp : ℕ → FetchResult) : AppState × ℕ :=
  runCities cfg resp (clearMarkers s) 0 cfg.locations

/-- The (lat, lon) string pairs of the locations a cycle resolves
successfully — those whose fetch outcome is a non-empty result array — in
cycle order, starting at loop position i. -/
def collectSuccesses (resp : ℕ → FetchResult) : ℕ → List String → List (String × String)
  | _, [] => []
  | i, _ :: rest =>
    match resp i with
    | .ok (first :: _) => (first.lat, first.lon) :: collectSuccesses resp (i + 1) rest
    | _ => collectSuccesses resp (i + 1) rest

/-- The position addMarker computes for a pair of raw coordinate strings. -/
noncomputable def projectedPosition (p : String × String) : Vec3 JSNum :=
  latLonToVector3J (jsOfParse (parseFloat p.1)) (jsOfParse (parseFloat p.2)) (.num 1.005)

/-- The program state after the clear and the first i iterations of a
refresh cycle (i past the end gives the completed cycle). -/
noncomputable def cycleStateAt (s : AppState) (cfg : Settings) (resp : ℕ → FetchResult)
    (i : ℕ) : AppState :=
  (runCities cfg resp (clearMarkers s) 0 (cfg.locations.take i)).1

/-- The identity discipline every reachable program state satisfies: the
globe's children carry distinct identities (each Mesh is attached at most
once), and every recorded identity was allocated before nextId. -/
def WFids (s : AppState) : Prop :=
  (s.globeChildren.map Marker.id).Nodup ∧
  (∀ m ∈ s.markers, m.id < s.nextId) ∧
  (∀ c ∈ s.globeChildren, c.id < s.nextId)

/-- A one-marker state reached from startup by a single addMarker call, used
to instantiate the hypothesised theorems. -/
noncomputable def oneMarkerState : AppState :=
  (addMarker initialState (.num 40) (.num (-74)) 0xff0000 (.num 0.008)).1

/-- A two-location configuration for the failure-continues scenario. -/
noncomputable def cfgAB : Settings :=
  { settings with locations := ["A", "B"] }

/-- A one-location configuration for the skipped-delay counterexample. -/
noncomputable def cfgA : Settings :=
  { settings with locations := ["A"] }

/-- Fetch outcomes: position 0 resolves to (40.0, -74.0), every later
position throws. -/
def respAB : ℕ → FetchResult
  | 0 => .ok [⟨"40.0", "-74.0"⟩]
  | _ => .fail

/-- Fetch outcomes where every request throws. -/
def respFail : ℕ → FetchResult := fun _ => .fail

/-! ## Projection properties -/

/-- C4: for every latitude, longitude and radius — including inputs outside
[-90, 90] × [-180, 180], since the function performs no range validation —
the projection returns exactly the point with
x = -(radius·sin phi·cos theta), y = radius·cos phi,
z = radius·sin phi·sin theta, where phi = (90 - lat)·(pi/180) and
theta = (lon + 180)·(pi/180). -/
theorem latLonToVector3_formula (lat lon radius : ℝ) :
    latLonToVector3 lat lon radius =
      ⟨-(radius * Real.sin ((90 - lat) * (π / 180)) * Real.cos ((lon + 180) * (π / 180))),
        radius * Real.cos ((90 - lat) * (π / 180)),
        radius * Real.sin ((90 - lat) * (π / 180)) * Real.sin ((lon + 180) * (π / 180))⟩ := rfl

/-- C5: for latitude in [-90, 90], longitude in [-180, 180] and positive
radius, the projected point lies at distance exactly radius from the origin
(over exact reals). -/
theorem latLonToVector3_radius (lat lon radius : ℝ)
    (hlat1 : -90 ≤ lat) (hlat2 : lat ≤ 90)
    (hlon1 : -180 ≤ lon) (hlon2 : lon ≤ 180)
    (hr : 0 < radius) :
    vecLength (latLonToVector3 lat lon radius) = radius := by
  have hth := Real.sin_sq_add_cos_sq ((lon + 180) * (π / 180))
  have hph := Real.sin_sq_add_cos_sq ((90 - lat) * (π / 180))
  have key : vecLength (latLonToVector3 lat lon radius) = Real.sqrt (radius ^ 2) := by
    unfold vecLength
    congr 1
    show (-(radius * Real.sin ((90 - lat) * (π / 180)) * Real.cos ((lon + 180) * (π / 180)))) ^ 2
        + (radius * Real.cos ((90 - lat) * (π / 180))) ^ 2
        + (radius * Real.sin ((90 - lat) * (π / 180)) * Real.sin ((lon + 180) * (π / 180))) ^ 2
        = radius ^ 2
    linear_combination (radius ^ 2 * Real.sin ((90 - lat) * (π / 180)) ^ 2) * hth
      + radius ^ 2 * hph
  rw [key, Real.sqrt_sq hr.le]

/-- Witness for C5 at latitude 0, longitude 0, radius 1. -/
theorem latLonToVector3_radius_witness :
    vecLength (latLonToVector3 0 0 1) = 1 :=
  latLonToVector3_radius 0 0 1 (by norm_num) (by norm_num) (by norm_num) (by norm_num)
    (by norm_num)

/-- C6 counterexample: at latitude 0, longitude 0, radius 1 the projection
does not return (-1, 0, 0); its x component is +1 (theta is pi there, so
x = -(1·sin(pi/2)·cos pi) = 1). -/
theorem projection_convention_counterexample :
    latLonToVector3 0 0 1 ≠ (⟨-1, 0, 0⟩ : Vec3 ℝ) := by
  intro h
  have hx : (latLonToVector3 0 0 1).x = 1 := by
    show -((1 : ℝ) * Real.sin ((90 - 0) * (π / 180)) * Real.cos ((0 + 180) * (π / 180))) = 1
    have e1 : ((90 : ℝ) - 0) * (π / 180) = π / 2 := by ring
    have e2 : ((0 : ℝ) + 180) * (π / 180) = π := by ring
    rw [e1, e2, Real.sin_pi_div_two, Real.cos_pi]
    norm_num
  rw [h] at hx
  have : (-1 : ℝ) = 1 := hx
  norm_num at this

/-- C6 amended: the pole convention holds — latitude 90 maps to
(0, radius, 0) for every longitude — but the equator points carry the
opposite signs to the claimed ones: latitude 0, longitude 0 maps to
(radius, 0, 0), and latitude 0, longitude 90 maps to (0, 0, -radius). -/
theorem projection_convention_amended (radius lon : ℝ) :
    latLonToVector3 90 lon radius = ⟨0, radius, 0⟩ ∧
    latLonToVector3 0 0 radius = ⟨radius, 0, 0⟩ ∧
    latLonToVector3 0 90 radius = ⟨0, 0, -radius⟩ := by
  have e0 : ((90 : ℝ) - 90) * (π / 180) = 0 := by ring
  have e1 : ((90 : ℝ) - 0) * (π / 180) = π / 2 := by ring
  have e2 : ((0 : ℝ) + 180) * (π / 180) = π := by ring
  have e3 : ((90 : ℝ) + 180) * (π / 180) = π + π / 2 := by ring
  have hs3 : Real.sin (π + π / 2) = -1 := by
    rw [Real.sin_add, Real.sin_pi, Real.cos_pi, Real.sin_pi_div_two]
    ring
  have hc3 : Real.cos (π + π / 2) = 0 := by
    rw [Real.cos_add, Real.sin_pi, Real.cos_pi, Real.cos_pi_div_two]
    ring
  refine ⟨?_, ?_, ?_⟩
  · ext
    · show -(radius * Real.sin ((90 - 90) * (π / 180)) * Real.cos ((lon + 180) * (π / 180))) = 0
      rw [e0, Real.sin_zero]
      ring
    · show radius * Real.cos ((90 - 90) * (π / 180)) = radius
      rw [e0, Real.cos_zero]
      ring
    · show radius * Real.sin ((90 - 90) * (π / 180)) * Real.sin ((lon + 180) * (π / 180)) = 0
      rw [e0, Real.sin_zero]
      ring
  · ext
    · show -(radius * Real.sin ((90 - 0) * (π / 180)) * Real.cos ((0 + 180) * (π / 180))) = radius
      rw [e1, e2, Real.sin_pi_div_two, Real.cos_pi]
      ring
    · show radius * Real.cos ((90 - 0) * (π / 180)) = 0
      rw [e1, Real.cos_pi_div_two]
      ring
    · show radius * Real.sin ((90 - 0) * (π / 180)) * Real.sin ((0 + 180) * (π / 180)) = 0
      rw [e1, e2, Real.sin_pi]
      ring
  · ext
    · show -(radius * Real.sin ((90 - 0) * (π / 180)) * Real.cos ((90 + 180) * (π / 180))) = 0
      rw [e1, e3, Real.sin_pi_div_two, hc3]
      ring
    · show radius * Real.cos ((90 - 0) * (π / 180)) = 0
      rw [e1, Real.cos_pi_div_two]
      ring
    · show radius * Real.sin ((90 - 0) * (π / 180)) * Real.sin ((90 + 180) * (π / 180)) = -radius
      rw [e1, e3, Real.sin_pi_div_two, hs3]
      ring

/-! ## Marker store properties -/

/-- Identities survive removeChild only if present before: the spliced list
is a sublist. -/
theorem mem_ids_removeChild {ch : List Marker} {m : Marker} {j : ℕ}
    (h : j ∈ (removeChild ch m).map Marker.id) : j ∈ ch.map Marker.id :=
  ((List.eraseP_sublist ch).map Marker.id).subset h

/-- Removing a marker from children with pairwise-distinct identities
removes its identity entirely. -/
theorem not_mem_ids_removeChild {ch : List Marker} (hnd : (ch.map Marker.id).Nodup)
    (m : Marker) : m.id ∉ (removeChild ch m).map Marker.id := by
  induction ch with
  | nil => simp [removeChild]
  | cons c t ih =>
    rw [List.map_cons, List.nodup_cons] at hnd
    by_cases hc : c.id = m.id
    · rw [removeChild, List.eraseP_cons_of_pos (by simpa using hc)]
      rw [← hc]
      exact hnd.1
    · rw [removeChild, List.eraseP_cons_of_neg (by simpa using hc)]
      rw [List.map_cons]
      intro hmem
      rcases List.mem_cons.1 hmem with h | h
      · exact hc h.symm
      · exact ih hnd.2 h

/-- removeChild preserves distinctness of the children identities. -/
theorem nodup_ids_removeChild {ch : List Marker} (hnd : (ch.map Marker.id).Nodup)
    (m : Marker) : ((removeChild ch m).map Marker.id).Nodup :=
  hnd.sublist ((List.eraseP_sublist ch).map Marker.id)

/-- Identities of the children after the clear fold are among the original
children identities. -/
theorem ids_foldl_removeChild_subset (ms : List Marker) :
    ∀ ch : List Marker, ∀ j ∈ ((ms.foldl removeChild ch).map Marker.id), j ∈ ch.map Marker.id := by
  induction ms with
  | nil => intro ch j hj; simpa using hj
  | cons m t ih =>
    intro ch j hj
    rw [List.foldl_cons] at hj
    exact mem_ids_removeChild (ih (removeChild ch m) j hj)

/-- The clear fold keeps the children identities pairwise distinct. -/
theorem nodup_ids_foldl_removeChild (ms : List Marker) :
    ∀ ch : List Marker, (ch.map Marker.id).Nodup →
      ((ms.foldl removeChild ch).map Marker.id).Nodup := by
  induction ms with
  | nil => intro ch hnd; simpa using hnd
  | cons m t ih =>
    intro ch hnd
    rw [List.foldl_cons]
    exact ih (removeChild ch m) (nodup_ids_removeChild hnd m)

/-- Folding removeChild over the stored markers detaches the identity of
every one of them, provided the children identities are distinct. -/
theorem foldl_removeChild_removes (ms : List Marker) :
    ∀ ch : List Marker, (ch.map Marker.id).Nodup →
      ∀ m ∈ ms, m.id ∉ ((ms.foldl removeChild ch).map Marker.id) := by
  induction ms with
  | nil => intro ch _ m hm; simp at hm
  | cons m0 t ih =>
    intro ch hnd m hm
    rw [List.foldl_cons]
    rcases List.mem_cons.1 hm with h | h
    · subst h
      intro hmem
      exact not_mem_ids_removeChild hnd m
        (ids_foldl_removeChild_subset t (removeChild ch m) m.id hmem)
    · exact ih (removeChild ch m0) (nodup_ids_removeChild hnd m0) m h

/-- C7: addMarker positions the new marker at the projection of (lat, lon)
at the fixed offset radius 1.005 (just above the unit globe), recomputes its
orientation from its own position as the outward normal — the look target is
the position offset by the normalized position vector — records the given
color and size, attaches the marker as a child of the globe, appends it to
the marker store, and returns that same marker as the handle. -/
theorem addMarker_spec (s : AppState) (lat lon : JSNum) (color : ℕ) (size : JSNum) :
    (addMarker s lat lon color size).2.position = latLonToVector3J lat lon (.num 1.005) ∧
    (addMarker s lat lon color size).2.lookTarget =
      vecAddJ (addMarker s lat lon color size).2.position
        (vecNormalizeJ (addMarker s lat lon color size).2.position) ∧
    (addMarker s lat lon color size).2.color = color ∧
    (addMarker s lat lon color size).2.size = size ∧
    (addMarker s lat lon color size).1.globeChildren =
      s.globeChildren ++ [(addMarker s lat lon color size).2] ∧
    (addMarker s lat lon color size).1.markers =
      s.markers ++ [(addMarker s lat lon color size).2] :=
  ⟨rfl, rfl, rfl, rfl, rfl, rfl⟩

/-- C8: clearMarkers leaves the marker store empty, detaches every stored
marker from the globe children, is idempotent, and is a no-op on any state
whose store is already empty. -/
theorem clearMarkers_spec (s : AppState)
    (hnd : (s.globeChildren.map Marker.id).Nodup) :
    (clearMarkers s).markers = [] ∧
    clearMarkers (clearMarkers s) = clearMarkers s ∧
    (∀ ch n, clearMarkers ⟨ch, [], n⟩ = ⟨ch, [], n⟩) ∧
    (∀ m ∈ s.markers, m.id ∉ (clearMarkers s).globeChildren.map Marker.id) := by
  refine ⟨rfl, rfl, fun ch n => rfl, ?_⟩
  intro m hm
  exact foldl_removeChild_removes s.markers s.globeChildren hnd m hm

/-- Witness for C8 at a state holding one marker attached to the globe. -/
theorem clearMarkers_spec_witness :
    (clearMarkers oneMarkerState).markers = [] ∧
    clearMarkers (clearMarkers oneMarkerState) = clearMarkers oneMarkerState ∧
    (∀ ch n, clearMarkers ⟨ch, [], n⟩ = ⟨ch, [], n⟩) ∧
    (∀ m ∈ oneMarkerState.markers,
      m.id ∉ (clearMarkers oneMarkerState).globeChildren.map Marker.id) :=
  clearMarkers_spec oneMarkerState (List.nodup_singleton 0)

/-! ## Refresh cycle properties -/

/-- Running the loop from any state appends exactly one marker per
successfully resolved location — in order, at its projected position, with a
freshly allocated identity — to both the marker store and the globe
children. -/
theorem runCities_spec (cfg : Settings) (resp : ℕ → FetchResult) :
    ∀ (cities : List String) (s : AppState) (i : ℕ),
      ∃ new : List Marker,
        (runCities cfg resp s i cities).1.markers = s.markers ++ new ∧
        (runCities cfg resp s i cities).1.globeChildren = s.globeChildren ++ new ∧
        new.map Marker.position = (collectSuccesses resp i cities).map projectedPosition ∧
        (∀ m ∈ new, s.nextId ≤ m.id) := by
  intro cities
  induction cities with
  | nil =>
    intro s i
    exact ⟨[], by simp [runCities], by simp [runCities],
      by simp [runCities, collectSuccesses], by simp⟩
  | cons c rest ih =>
    intro s i
    cases hr : resp i with
    | fail =>
      obtain ⟨new, h1, h2, h3, h4⟩ := ih s (i + 1)
      exact ⟨new, by simp only [runCities, stepCity, hr]; exact h1,
        by simp only [runCities, stepCity, hr]; exact h2,
        by simp only [collectSuccesses, hr]; exact h3, h4⟩
    | ok data =>
      cases data with
      | nil =>
        obtain ⟨new, h1, h2, h3, h4⟩ := ih s (i + 1)
        exact ⟨new, by simp only [runCities, stepCity, hr]; exact h1,
          by simp only [runCities, stepCity, hr]; exact h2,
          by simp only [collectSuccesses, hr]; exact h3, h4⟩
      | cons f rrest =>
        obtain ⟨new, h1, h2, h3, h4⟩ :=
          ih (addMarker s (jsOfParse (parseFloat f.lat)) (jsOfParse (parseFloat f.lon))
            cfg.markerColor cfg.markerSize).1 (i + 1)
        refine ⟨(addMarker s (jsOfParse (parseFloat f.lat)) (jsOfParse (parseFloat f.lon))
            cfg.markerColor cfg.markerSize).2 :: new, ?_, ?_, ?_, ?_⟩
        · simp only [runCities, stepCity, hr]
          rw [h1]
          show (addMarker _ _ _ _ _).1.markers ++ new = _
          simp [addMarker]
        · simp only [runCities, stepCity, hr]
          rw [h2]
          show (addMarker _ _ _ _ _).1.globeChildren ++ new = _
          simp [addMarker]
        · simp only [collectSuccesses, hr, List.map_cons]
          rw [← h3]
          rfl
        · intro m hm
          rcases List.mem_cons.1 hm with h | h
          · subst h
            exact le_refl _
          · have := h4 m h
            have hstep : (addMarker s (jsOfParse (parseFloat f.lat))
                (jsOfParse (parseFloat f.lon)) cfg.markerColor cfg.markerSize).1.nextId
                = s.nextId + 1 := rfl
            omega

/-- The total suspension time of the loop is 1000 ms per location whose
fetch outcome did not throw — the thrown-error path skips its delay. -/
theorem runCities_time (cfg : Settings) (resp : ℕ → FetchResult) :
    ∀ (cities : List String) (s : AppState) (i : ℕ),
      (runCities cfg resp s i cities).2 =
        1000 * ((List.range cities.length).countP fun k => !(resp (i + k)).isFail) := by
  intro cities
  induction cities with
  | nil =>
    intro s i
    simp [runCities]
  | cons c rest ih =>
    intro s i
    have hstep : (stepCity s cfg (resp i)).2 = if (resp i).isFail then 0 else 1000 := by
      cases hr : resp i with
      | fail => simp [stepCity, FetchResult.isFail]
      | ok data => cases data <;> simp [stepCity, FetchResult.isFail]
    have hlhs : (runCities cfg resp s i (c :: rest)).2 =
        (stepCity s cfg (resp i)).2
          + (runCities cfg resp (stepCity s cfg (resp i)).1 (i + 1) rest).2 := rfl
    rw [hlhs, hstep, ih (stepCity s cfg (resp i)).1 (i + 1)]
    rw [List.length_cons, List.range_succ_eq_map, List.countP_cons, List.countP_map]
    have hshift : (List.range rest.length).countP ((fun k => !(resp (i + k)).isFail) ∘ Nat.succ)
        = (List.range rest.length).countP fun k => !(resp (i + 1 + k)).isFail := by
      apply List.countP_congr
      intro a _
      have : i + Nat.succ a = i + 1 + a := by omega
      simp [Function.comp, this]
    rw [hshift]
    cases hfail : (resp i).isFail <;> simp [hfail] <;> ring

/-- C1 counterexample: over the single location list of cfgA, when that
location's request throws, the whole cycle suspends for 0 ms — strictly less
than N × 1000 ms — because the awaited delay sits inside the try block and
the thrown error jumps past it. -/
theorem cycle_suspension_counterexample :
    ¬ (1000 * cfgA.locations.length ≤
        (geocodeAndAddMarkers initialState cfgA respFail).2) := by
  have ht : (geocodeAndAddMarkers initialState cfgA respFail).2 = 0 := rfl
  have hl : cfgA.locations.length = 1 := rfl
  rw [ht, hl]
  omega

/-- C1 amended: the orchestrator waits the fixed 1000 ms delay after every
location whose fetch and response decoding do not throw — including
empty-result locations and including after the last location — but a thrown
request error skips that location's delay; hence a cycle accumulates exactly
1000 ms × (number of non-throwing locations) of suspension time. -/
theorem cycle_suspension_exact (s : AppState) (cfg : Settings) (resp : ℕ → FetchResult) :
    (geocodeAndAddMarkers s cfg resp).2 =
      1000 * ((List.range cfg.locations.length).countP fun k => !(resp k).isFail) := by
  rw [geocodeAndAddMarkers, runCities_time cfg resp cfg.locations (clearMarkers s) 0]
  congr 1
  apply List.countP_congr
  intro a _
  rw [Nat.zero_add]

/-- C2: a location that fails to resolve — thrown request error or empty
result array — is only logged and the cycle continues: over ["A", "B"] with
A resolving to (40.0, -74.0) and B failing either way, the finished cycle
leaves exactly one marker, at the position projected from (40.0, -74.0). -/
theorem failure_continues_cycle (s : AppState) (cfg : Settings) (resp : ℕ → FetchResult)
    (hloc : cfg.locations = ["A", "B"])
    (hA : resp 0 = .ok [⟨"40.0", "-74.0"⟩])
    (hB : resp 1 = .fail ∨ resp 1 = .ok []) :
    ((geocodeAndAddMarkers s cfg resp).1.markers).map Marker.position =
      [latLonToVector3J (.num 40) (.num (-74)) (.num 1.005)] := by
  have p1 : parseFloat "40.0" = some 40 := by
    have h : parseFloat "40.0" =
        some ((1 : ℚ) * (((40 : ℕ) : ℚ) + ((0 : ℕ) : ℚ) / (10 : ℚ) ^ (1 : ℕ))) := rfl
    rw [h]
    norm_num
  have p2 : parseFloat "-74.0" = some (-74) := by
    have h : parseFloat "-74.0" =
        some ((-1 : ℚ) * (((74 : ℕ) : ℚ) + ((0 : ℕ) : ℚ) / (10 : ℚ) ^ (1 : ℕ))) := rfl
    rw [h]
    norm_num
  have k1 : jsOfParse (parseFloat "40.0") = JSNum.num 40 := by
    rw [p1]
    exact congrArg JSNum.num (by norm_num)
  have k2 : jsOfParse (parseFloat "-74.0") = JSNum.num (-74) := by
    rw [p2]
    exact congrArg JSNum.num (by norm_num)
  rw [geocodeAndAddMarkers, hloc]
  rcases hB with hB | hB <;>
    simp [runCities, stepCity, hA, hB, addMarker, clearMarkers, k1, k2]

/-- Witness for C2 on the concrete two-location configuration. -/
theorem failure_continues_cycle_witness :
    ((geocodeAndAddMarkers initialState cfgAB respAB).1.markers).map Marker.position =
      [latLonToVector3J (.num 40) (.num (-74)) (.num 1.005)] :=
  failure_continues_cycle initialState cfgAB respAB rfl rfl (Or.inl rfl)

/-- The one-marker startup state satisfies the identity discipline. -/
theorem WFids_oneMarkerState : WFids oneMarkerState := by
  refine ⟨List.nodup_singleton 0, ?_, ?_⟩ <;>
    · intro m hm
      simp only [oneMarkerState, addMarker, initialState, List.nil_append,
        List.mem_singleton] at hm
      rw [hm]
      exact Nat.lt_succ_self 0

/-- C3: within a single (non-overlapping) refresh cycle from a well-formed
state — the source does not guard against overlapping cycles — after the
initial clear and any number i of processed locations, the marker store
holds exactly one marker per successfully geocoded location so far, in order
and at its projected position, and no marker of the prior cycle is still
attached to the globe; i at or past the list length gives the completed
cycle. -/
theorem marker_cycle_invariant (s : AppState) (cfg : Settings) (resp : ℕ → FetchResult)
    (hWF : WFids s) (i : ℕ) :
    (cycleStateAt s cfg resp i).markers.map Marker.position =
      (collectSuccesses resp 0 (cfg.locations.take i)).map projectedPosition ∧
    (∀ m ∈ s.markers, m.id ∉ (cycleStateAt s cfg resp i).globeChildren.map Marker.id) := by
  obtain ⟨hnd, hlt, _⟩ := hWF
  obtain ⟨new, h1, h2, h3, h4⟩ :=
    runCities_spec cfg resp (cfg.locations.take i) (clearMarkers s) 0
  constructor
  · rw [cycleStateAt, h1]
    simpa [clearMarkers] using h3
  · intro m hm
    rw [cycleStateAt, h2, List.map_append, List.mem_append]
    rintro (hc | hc)
    · exact foldl_removeChild_removes s.markers s.globeChildren hnd m hm hc
    · obtain ⟨m1, hm1, hid⟩ := List.mem_map.1 hc
      have hge : (clearMarkers s).nextId ≤ m1.id := h4 m1 hm1
      have heq : (clearMarkers s).nextId = s.nextId := rfl
      have hmlt := hlt m hm
      omega

/-- Witness for C3: a full cycle over cfgAB from the one-marker state. -/
theorem marker_cycle_invariant_witness :
    (cycleStateAt oneMarkerState cfgAB respAB 2).markers.map Marker.position =
      (collectSuccesses respAB 0 (cfgAB.locations.take 2)).map projectedPosition ∧
    (∀ m ∈ oneMarkerState.markers,
      m.id ∉ (cycleStateAt oneMarkerState cfgAB respAB 2).globeChildren.map Marker.id) :=
  marker_cycle_invariant oneMarkerState cfgAB respAB WFids_oneMarkerState 2

/-- C10: the only gate for adding a marker is a non-empty result array — the
parsed coordinates are never validated. The marker is appended with position
computed from the parseFloat results; a non-numeric coordinate string such
as "abc" parses to NaN, and the projection of a NaN coordinate is the
all-NaN position, at which the marker is still created and stored. -/
theorem nonempty_response_adds_nan_marker (s : AppState) (cfg : Settings)
    (first : GeoResult) (rest : List GeoResult) :
    (stepCity s cfg (.ok (first :: rest))).1.markers =
      s.markers ++ [(addMarker s (jsOfParse (parseFloat first.lat))
        (jsOfParse (parseFloat first.lon)) cfg.markerColor cfg.markerSize).2] ∧
    (addMarker s (jsOfParse (parseFloat first.lat)) (jsOfParse (parseFloat first.lon))
        cfg.markerColor cfg.markerSize).2.position =
      latLonToVector3J (jsOfParse (parseFloat first.lat)) (jsOfParse (parseFloat first.lon))
        (.num 1.005) ∧
    parseFloat "abc" = none ∧
    (∀ lon radius : JSNum, latLonToVector3J .nan lon radius = ⟨.nan, .nan, .nan⟩) := by
  refine ⟨rfl, rfl, rfl, ?_⟩
  intro lon radius
  cases lon <;> cases radius <;> rfl

/-! ## Settings properties -/

/-- C9 counterexample: the settings object literal defines only seven
fields; ambientLightIntensity and directionalLightIntensity are undefined at
program start, so not every listed field is present from program start
onward. -/
theorem settings_light_fields_undefined :
    settings.ambientLightIntensity = none ∧
    settings.directionalLightIntensity = none :=
  ⟨rfl, rfl⟩

/-- C9 amended: from program start the settings object has backgroundColor,
markerColor, markerSize, locations, shadowOpacity, shadowSize and
shadowPosition defined with their literal initial values, while
ambientLightIntensity and directionalLightIntensity are undefined until the
corresponding slider handler first runs, which defines them with the parsed
input value. -/
theorem settings_fields_amended (st : Settings) (raw : String) :
    settings.backgroundColor = 0xffffff ∧
    settings.markerColor = 0xff0000 ∧
    settings.markerSize = .num 0.008 ∧
    settings.locations = ["New York, USA", "Miami, USA", "Cancun, Mexico"] ∧
    settings.shadowOpacity = .num 0.35 ∧
    settings.shadowSize = .num 5 ∧
    settings.shadowPosition = .num (-1.8) ∧
    settings.ambientLightIntensity = none ∧
    settings.directionalLightIntensity = none ∧
    (ambientLightHandler st raw).ambientLightIntensity =
      some (jsOfParse (parseFloat raw)) ∧
    (directionalLightHandler st raw).directionalLightIntensity =
      some (jsOfParse (parseFloat raw)) :=
  ⟨rfl, rfl, rfl, rfl, rfl, rfl, rfl, rfl, rfl, rfl, rfl⟩
